import Mathlib

/-
Verification development for the Extraction-Service repository.

Shallow embedding of the extraction orchestration engine:
the hospital admission summary card data model and its persistence bridge
(src/database/types.py), the handler that fans out eleven capability
invocations and persists two records sharing one correlation identifier
(src/handler/clinical_and_hospital_summary_extraction_handler.py), the
aggregators (src/extractors/.../aggregator.py), the repositories
(src/repositories/*.py), and the agent configuration
(src/pydantic_ai_settings.py, facility_timing/tool.py).

Conventions of the embedding:
  Python str becomes String; Python int becomes Int (unbounded); float
  values that only pass through (never computed with) become Rat;
  Optional fields become Option; functions that raise become Except or
  Option valued; datetime values are abstracted as results of a caller
  supplied ISO parser (String to Option Int, seconds since an epoch).
  Domain payloads that the orchestrator never inspects (spec section 1
  treats them as opaque payload shapes) are embedded as single field
  placeholder structures.
-/

namespace ExtractionService

/-- LabStatus enum from src/extractors/clinical_summary_entity/shared_models.py. -/
inductive LabStatus
  | critical
  | abnormal_high
  | abnormal_low
  | normal
  deriving DecidableEq, Repr

/-- LabCategory enum from shared_models.py. -/
inductive LabCategory
  | chemistry
  | hematology
  | coagulation
  | arterial_blood_gas
  | urinalysis
  | metabolic
  | cardiac
  | hepatic
  | renal
  | electrolytes
  | endocrine
  | toxicology
  deriving DecidableEq, Repr

/-- Embedding of the Python type Union[str, float] used by LabTest.value. -/
inductive StrOrNum
  | s (v : String)
  | n (v : Rat)
  deriving DecidableEq, Repr

/-- LabTest model from shared_models.py. -/
structure LabTest where
  id : String
  test_name : String
  test_category : Option LabCategory := none
  value : StrOrNum
  unit : Option String := none
  status : LabStatus
  reference_range : Option String := none
  reference_range_min : Option Rat := none
  reference_range_max : Option Rat := none
  baseline_value : Option StrOrNum := none
  clinical_significance : Option String := none
  documented_in_section : Option String := none
  deriving DecidableEq, Repr

/-- LabSummary model from shared_models.py; all four counts default to 0. -/
structure LabSummary where
  total_tests : Int := 0
  critical_count : Int := 0
  abnormal_count : Int := 0
  normal_count : Int := 0
  deriving DecidableEq, Repr

/-- LabExtractionResponse from src/extractors/clinical_summary_entity/labs/model.py. -/
structure LabExtractionResponse where
  lab_results : List LabTest := []
  lab_summary : LabSummary := {}
  patient_id : Option String := none
  hospitalization_id : Option String := none
  deriving DecidableEq, Repr

/-- Embedding of the static method
ClinicalAndHospitalSummaryExtractionHandler._ensure_lab_summary
(src/handler/clinical_and_hospital_summary_extraction_handler.py lines 362 to 393,
textually identical to ClinicalSummaryExtractor._ensure_lab_summary in
src/extractors/clinical_summary_entity/aggregator.py lines 180 to 200).
The Python guard is the truthiness test
summary.total_tests and summary.total_tests > 0. -/
def ensureLabSummary (labsResp : LabExtractionResponse) : LabSummary :=
  if labsResp.lab_summary.total_tests ≠ 0 ∧ 0 < labsResp.lab_summary.total_tests then
    labsResp.lab_summary
  else
    let total : Int := labsResp.lab_results.length
    let critical : Int := labsResp.lab_results.countP (fun lab => lab.status == LabStatus.critical)
    let abnormal : Int := labsResp.lab_results.countP
      (fun lab => lab.status == LabStatus.abnormal_high || lab.status == LabStatus.abnormal_low)
    let normal : Int := total - critical - abnormal
    { total_tests := total
      critical_count := critical
      abnormal_count := abnormal
      normal_count := normal }

/-- FacilityType enum from facility_timing/model.py. -/
inductive FacilityType
  | acute_care
  | psychiatric
  | rehabilitation
  | ltac
  deriving DecidableEq, Repr

/-- Address model from facility_timing/model.py. -/
structure Address where
  street : Option String := none
  city : String
  state : String
  zip : Option String := none
  deriving DecidableEq, Repr

/-- FacilityData model from facility_timing/model.py. -/
structure FacilityData where
  facility_name : String
  facility_id : Option String := none
  facility_type : FacilityType := FacilityType.acute_care
  address : Option Address := none
  deriving DecidableEq, Repr

/-- AdmissionSource enum from facility_timing/model.py. -/
inductive AdmissionSource
  | emergency_dept
  | direct_admission
  | transfer
  | scheduled
  deriving DecidableEq, Repr

/-- DischargeDisposition enum from facility_timing/model.py. -/
inductive DischargeDisposition
  | home
  | snf
  | home_health
  | rehab
  | transfer
  | expired
  deriving DecidableEq, Repr

/-- TimingData model from facility_timing/model.py. -/
structure TimingData where
  admission_date : String
  admission_time : Option String := none
  discharge_date : String
  discharge_time : Option String := none
  admission_source : Option AdmissionSource := none
  discharge_disposition : Option DischargeDisposition := none
  deriving DecidableEq, Repr

/-- Python timedelta.days floors the signed duration in seconds toward
negative infinity, in whole days of 86400 seconds. -/
def timedeltaDays (seconds : Int) : Int :=
  seconds.fdiv 86400

/-- Embedding of the TimingData.length_of_stay_days property
(facility_timing/model.py lines 88 to 97). The ISO date parsing done by
datetime.fromisoformat (after the Z replacement) is abstracted by the
parseIso argument: some value means a successful parse to seconds since an
epoch, none means the ValueError / AttributeError branch, which the source
turns into 0. On success the source returns max(0, delta.days). -/
def TimingData.length_of_stay_days (parseIso : String → Option Int) (t : TimingData) : Int :=
  match parseIso t.admission_date, parseIso t.discharge_date with
  | some admission, some discharge => max 0 (timedeltaDays (discharge - admission))
  | _, _ => 0

/-- FacilityTimingExtractionResponse from facility_timing/model.py. -/
structure FacilityTimingExtractionResponse where
  facility : FacilityData
  timing : TimingData
  patient_id : Option String := none
  hospitalization_id : Option String := none
  deriving DecidableEq, Repr

/-- SecondaryDiagnosis model from diagnosis/model.py. -/
structure SecondaryDiagnosis where
  diagnosis : String
  icd10_code : Option String := none
  evidence : String
  relationship_to_primary : Option String := none
  deriving DecidableEq, Repr

/-- DiagnosisData model from diagnosis/model.py. -/
structure DiagnosisData where
  primary_diagnosis : String
  primary_diagnosis_icd10 : Option String := none
  primary_diagnosis_evidence : String
  diagnosis_category : String
  secondary_diagnoses : List SecondaryDiagnosis := []
  deriving DecidableEq, Repr

/-- DiagnosisExtractionResponse from diagnosis/model.py. -/
structure DiagnosisExtractionResponse where
  diagnosis : DiagnosisData
  deriving DecidableEq, Repr

/-- RiskSeverity enum from medication_risk/model.py. -/
inductive RiskSeverity
  | critical
  | major
  | moderate
  | minor
  deriving DecidableEq, Repr

/-- RiskLevel enum from medication_risk/model.py. -/
inductive RiskLevel
  | high
  | medium
  | low
  deriving DecidableEq, Repr

/-- AssessmentMethod enum from medication_risk/model.py. -/
inductive AssessmentMethod
  | ai_analysis
  | pharmacist_determination
  | combined
  deriving DecidableEq, Repr

/-- PresentationType enum from medication_risk/model.py. -/
inductive PresentationType
  | A
  | B
  | C
  deriving DecidableEq, Repr

/-- Metadata model from medication_risk/model.py. -/
structure Metadata where
  note_type : String
  sections_reviewed : List String := []
  missing_information : List String := []
  model_uncertainty_notes : List String := []
  deriving DecidableEq, Repr

/-- ClinicalContext model from medication_risk/model.py. -/
structure ClinicalContext where
  presentation_type : PresentationType
  presentation_type_rationale : String
  primary_reason_for_presentation : String
  is_medication_related : Bool
  medication_relationship_explanation : String
  patient_clinical_status : String
  organ_dysfunction : List String := []
  deriving DecidableEq, Repr

/-- RiskScoring model from medication_risk/model.py. The ge constraints on
the two evidence point fields are captured by RiskScoring.Valid below. -/
structure RiskScoring where
  positive_evidence_points : Int
  negative_evidence_points : Int
  net_score : Int
  score_breakdown : String
  deriving DecidableEq, Repr

/-- LikelihoodPercentage model from medication_risk/model.py. -/
structure LikelihoodPercentage where
  percentage : Int
  evidence : String
  calculation_method : String := "evidence_scoring_system"
  deriving DecidableEq, Repr

/-- RiskFactor model from medication_risk/model.py. -/
structure RiskFactor where
  factor : String
  evidence : String
  severity : RiskSeverity
  severity_rationale : String
  implicated_medications : List String := []
  mechanism : String
  temporal_relationship : String
  deriving DecidableEq, Repr

/-- AlternativeExplanation model from medication_risk/model.py. -/
structure AlternativeExplanation where
  explanation : String
  likelihood : String
  supporting_evidence : String
  impact_on_medication_assessment : String
  deriving DecidableEq, Repr

/-- RiskAssessment model from medication_risk/model.py. -/
structure RiskAssessment where
  metadata : Metadata
  clinical_context : ClinicalContext
  risk_scoring : RiskScoring
  likelihood_percentage : LikelihoodPercentage
  risk_level : RiskLevel
  risk_factors : List RiskFactor := []
  alternative_explanations : List AlternativeExplanation := []
  negative_findings : List String := []
  confidence_score : Rat
  confidence_rationale : String
  assessment_method : AssessmentMethod := AssessmentMethod.ai_analysis
  assessed_at : String
  deriving DecidableEq, Repr

/-- MedicationRiskExtractionResponse from medication_risk/model.py. -/
structure MedicationRiskExtractionResponse where
  medication_risk_assessment : RiskAssessment
  deriving DecidableEq, Repr

/-- HospitalAdmissionSummaryCard from
src/extractors/hospital_admission_summary_card/model.py. -/
structure HospitalAdmissionSummaryCard where
  facility : FacilityData
  timing : TimingData
  diagnosis : DiagnosisData
  medication_risk_assessment : RiskAssessment
  hospitalization_id : Option String := none
  deriving DecidableEq, Repr

/-- Property HospitalAdmissionSummaryCard.length_of_stay_days
(model.py lines 34 to 37): delegates to the timing data. -/
def HospitalAdmissionSummaryCard.length_of_stay_days
    (parseIso : String → Option Int) (card : HospitalAdmissionSummaryCard) : Int :=
  card.timing.length_of_stay_days parseIso

/-- String value of a FacilityType member, as produced by model_dump of a
str valued Enum. -/
def FacilityType.value : FacilityType → String
  | .acute_care => "acute_care"
  | .psychiatric => "psychiatric"
  | .rehabilitation => "rehabilitation"
  | .ltac => "ltac"

/-- Pydantic enum validation for FacilityType: accepts exactly the declared
member values. -/
def FacilityType.fromValue : String → Option FacilityType
  | "acute_care" => some .acute_care
  | "psychiatric" => some .psychiatric
  | "rehabilitation" => some .rehabilitation
  | "ltac" => some .ltac
  | _ => none

/-- String value of an AdmissionSource member. -/
def AdmissionSource.value : AdmissionSource → String
  | .emergency_dept => "emergency_dept"
  | .direct_admission => "direct_admission"
  | .transfer => "transfer"
  | .scheduled => "scheduled"

/-- Pydantic enum validation for AdmissionSource. -/
def AdmissionSource.fromValue : String → Option AdmissionSource
  | "emergency_dept" => some .emergency_dept
  | "direct_admission" => some .direct_admission
  | "transfer" => some .transfer
  | "scheduled" => some .scheduled
  | _ => none

/-- String value of a DischargeDisposition member. -/
def DischargeDisposition.value : DischargeDisposition → String
  | .home => "home"
  | .snf => "snf"
  | .home_health => "home_health"
  | .rehab => "rehab"
  | .transfer => "transfer"
  | .expired => "expired"

/-- Pydantic enum validation for DischargeDisposition. -/
def DischargeDisposition.fromValue : String → Option DischargeDisposition
  | "home" => some .home
  | "snf" => some .snf
  | "home_health" => some .home_health
  | "rehab" => some .rehab
  | "transfer" => some .transfer
  | "expired" => some .expired
  | _ => none

/-- String value of a RiskSeverity member. -/
def RiskSeverity.value : RiskSeverity → String
  | .critical => "critical"
  | .major => "major"
  | .moderate => "moderate"
  | .minor => "minor"

/-- Pydantic enum validation for RiskSeverity. -/
def RiskSeverity.fromValue : String → Option RiskSeverity
  | "critical" => some .critical
  | "major" => some .major
  | "moderate" => some .moderate
  | "minor" => some .minor
  | _ => none

/-- String value of a RiskLevel member. -/
def RiskLevel.value : RiskLevel → String
  | .high => "high"
  | .medium => "medium"
  | .low => "low"

/-- Pydantic enum validation for RiskLevel. -/
def RiskLevel.fromValue : String → Option RiskLevel
  | "high" => some .high
  | "medium" => some .medium
  | "low" => some .low
  | _ => none

/-- String value of an AssessmentMethod member. -/
def AssessmentMethod.value : AssessmentMethod → String
  | .ai_analysis => "ai_analysis"
  | .pharmacist_determination => "pharmacist_determination"
  | .combined => "combined"

/-- Pydantic enum validation for AssessmentMethod. -/
def AssessmentMethod.fromValue : String → Option AssessmentMethod
  | "ai_analysis" => some .ai_analysis
  | "pharmacist_determination" => some .pharmacist_determination
  | "combined" => some .combined
  | _ => none

/-- String value of a PresentationType member. -/
def PresentationType.value : PresentationType → String
  | .A => "A"
  | .B => "B"
  | .C => "C"

/-- Pydantic enum validation for PresentationType. -/
def PresentationType.fromValue : String → Option PresentationType
  | "A" => some .A
  | "B" => some .B
  | "C" => some .C
  | _ => none

/-
Dumped (dict) forms of the card family, as produced by model_dump:
fixed key dictionaries are embedded as records with the same field names;
enum members dump to their string values, nested models to their dumped
forms, and plain fields pass through unchanged.
-/

/-- Dumped form of FacilityData. -/
structure FacilityDataDump where
  facility_name : String
  facility_id : Option String
  facility_type : String
  address : Option Address
  deriving DecidableEq, Repr

/-- Dumped form of TimingData. -/
structure TimingDataDump where
  admission_date : String
  admission_time : Option String
  discharge_date : String
  discharge_time : Option String
  admission_source : Option String
  discharge_disposition : Option String
  deriving DecidableEq, Repr

/-- Dumped form of ClinicalContext. -/
structure ClinicalContextDump where
  presentation_type : String
  presentation_type_rationale : String
  primary_reason_for_presentation : String
  is_medication_related : Bool
  medication_relationship_explanation : String
  patient_clinical_status : String
  organ_dysfunction : List String
  deriving DecidableEq, Repr

/-- Dumped form of RiskFactor. -/
structure RiskFactorDump where
  factor : String
  evidence : String
  severity : String
  severity_rationale : String
  implicated_medications : List String
  mechanism : String
  temporal_relationship : String
  deriving DecidableEq, Repr

/-- Dumped form of RiskAssessment. -/
structure RiskAssessmentDump where
  metadata : Metadata
  clinical_context : ClinicalContextDump
  risk_scoring : RiskScoring
  likelihood_percentage : LikelihoodPercentage
  risk_level : String
  risk_factors : List RiskFactorDump
  alternative_explanations : List AlternativeExplanation
  negative_findings : List String
  confidence_score : Rat
  confidence_rationale : String
  assessment_method : String
  assessed_at : String
  deriving DecidableEq, Repr

/-- Dumped form of HospitalAdmissionSummaryCard. -/
structure HospitalAdmissionSummaryCardDump where
  facility : FacilityDataDump
  timing : TimingDataDump
  diagnosis : DiagnosisData
  medication_risk_assessment : RiskAssessmentDump
  hospitalization_id : Option String
  deriving DecidableEq, Repr

/-- model_dump for FacilityData. -/
def FacilityData.model_dump (f : FacilityData) : FacilityDataDump :=
  { facility_name := f.facility_name
    facility_id := f.facility_id
    facility_type := f.facility_type.value
    address := f.address }

/-- model_dump for TimingData. -/
def TimingData.model_dump (t : TimingData) : TimingDataDump :=
  { admission_date := t.admission_date
    admission_time := t.admission_time
    discharge_date := t.discharge_date
    discharge_time := t.discharge_time
    admission_source := t.admission_source.map AdmissionSource.value
    discharge_disposition := t.discharge_disposition.map DischargeDisposition.value }

/-- model_dump for ClinicalContext. -/
def ClinicalContext.model_dump (c : ClinicalContext) : ClinicalContextDump :=
  { presentation_type := c.presentation_type.value
    presentation_type_rationale := c.presentation_type_rationale
    primary_reason_for_presentation := c.primary_reason_for_presentation
    is_medication_related := c.is_medication_related
    medication_relationship_explanation := c.medication_relationship_explanation
    patient_clinical_status := c.patient_clinical_status
    organ_dysfunction := c.organ_dysfunction }

/-- model_dump for RiskFactor. -/
def RiskFactor.model_dump (r : RiskFactor) : RiskFactorDump :=
  { factor := r.factor
    evidence := r.evidence
    severity := r.severity.value
    severity_rationale := r.severity_rationale
    implicated_medications := r.implicated_medications
    mechanism := r.mechanism
    temporal_relationship := r.temporal_relationship }

/-- model_dump for RiskAssessment. -/
def RiskAssessment.model_dump (r : RiskAssessment) : RiskAssessmentDump :=
  { metadata := r.metadata
    clinical_context := r.clinical_context.model_dump
    risk_scoring := r.risk_scoring
    likelihood_percentage := r.likelihood_percentage
    risk_level := r.risk_level.value
    risk_factors := r.risk_factors.map RiskFactor.model_dump
    alternative_explanations := r.alternative_explanations
    negative_findings := r.negative_findings
    confidence_score := r.confidence_score
    confidence_rationale := r.confidence_rationale
    assessment_method := r.assessment_method.value
    assessed_at := r.assessed_at }

/-- model_dump for HospitalAdmissionSummaryCard. -/
def HospitalAdmissionSummaryCard.model_dump
    (c : HospitalAdmissionSummaryCard) : HospitalAdmissionSummaryCardDump :=
  { facility := c.facility.model_dump
    timing := c.timing.model_dump
    diagnosis := c.diagnosis
    medication_risk_assessment := c.medication_risk_assessment.model_dump
    hospitalization_id := c.hospitalization_id }

/-- Validation of an optional enum field: a missing value stays missing, a
present string must be a declared member value. -/
def validateOptionalEnum {α : Type} (p : String → Option α) : Option String → Option (Option α)
  | none => some none
  | some s => (p s).map some

/-- Pydantic revalidation of a dumped FacilityData, as performed by
constructing the model from keyword arguments. -/
def FacilityData.validate (d : FacilityDataDump) : Option FacilityData :=
  (FacilityType.fromValue d.facility_type).bind fun ft =>
  some { facility_name := d.facility_name
         facility_id := d.facility_id
         facility_type := ft
         address := d.address }

/-- Pydantic revalidation of a dumped TimingData. -/
def TimingData.validate (d : TimingDataDump) : Option TimingData :=
  (validateOptionalEnum AdmissionSource.fromValue d.admission_source).bind fun src =>
  (validateOptionalEnum DischargeDisposition.fromValue d.discharge_disposition).bind fun disp =>
  some { admission_date := d.admission_date
         admission_time := d.admission_time
         discharge_date := d.discharge_date
         discharge_time := d.discharge_time
         admission_source := src
         discharge_disposition := disp }

/-- Pydantic revalidation of a dumped ClinicalContext. -/
def ClinicalContext.validate (d : ClinicalContextDump) : Option ClinicalContext :=
  (PresentationType.fromValue d.presentation_type).bind fun pt =>
  some { presentation_type := pt
         presentation_type_rationale := d.presentation_type_rationale
         primary_reason_for_presentation := d.primary_reason_for_presentation
         is_medication_related := d.is_medication_related
         medication_relationship_explanation := d.medication_relationship_explanation
         patient_clinical_status := d.patient_clinical_status
         organ_dysfunction := d.organ_dysfunction }

/-- Pydantic revalidation of RiskScoring: both evidence point fields carry a
ge 0 constraint. -/
def RiskScoring.validate (d : RiskScoring) : Option RiskScoring :=
  if 0 ≤ d.positive_evidence_points ∧ 0 ≤ d.negative_evidence_points then some d else none

/-- Pydantic revalidation of LikelihoodPercentage: the percentage carries
ge 0 and le 100 constraints. -/
def LikelihoodPercentage.validate (d : LikelihoodPercentage) : Option LikelihoodPercentage :=
  if 0 ≤ d.percentage ∧ d.percentage ≤ 100 then some d else none

/-- Pydantic revalidation of a dumped RiskFactor. -/
def RiskFactor.validate (d : RiskFactorDump) : Option RiskFactor :=
  (RiskSeverity.fromValue d.severity).bind fun sev =>
  some { factor := d.factor
         evidence := d.evidence
         severity := sev
         severity_rationale := d.severity_rationale
         implicated_medications := d.implicated_medications
         mechanism := d.mechanism
         temporal_relationship := d.temporal_relationship }

/-- Elementwise pydantic revalidation of a dumped risk factor list: every
element must validate. -/
def validateRiskFactors : List RiskFactorDump → Option (List RiskFactor)
  | [] => some []
  | d :: rest =>
    (RiskFactor.validate d).bind fun r =>
    (validateRiskFactors rest).bind fun rs =>
    some (r :: rs)

/-- Pydantic revalidation of a dumped RiskAssessment; the confidence score
carries ge 0 and le 1 constraints. -/
def RiskAssessment.validate (d : RiskAssessmentDump) : Option RiskAssessment :=
  (ClinicalContext.validate d.clinical_context).bind fun cc =>
  (RiskScoring.validate d.risk_scoring).bind fun rs =>
  (LikelihoodPercentage.validate d.likelihood_percentage).bind fun lp =>
  (RiskLevel.fromValue d.risk_level).bind fun rl =>
  (validateRiskFactors d.risk_factors).bind fun rfs =>
  (AssessmentMethod.fromValue d.assessment_method).bind fun am =>
  if 0 ≤ d.confidence_score ∧ d.confidence_score ≤ 1 then
    some { metadata := d.metadata
           clinical_context := cc
           risk_scoring := rs
           likelihood_percentage := lp
           risk_level := rl
           risk_factors := rfs
           alternative_explanations := d.alternative_explanations
           negative_findings := d.negative_findings
           confidence_score := d.confidence_score
           confidence_rationale := d.confidence_rationale
           assessment_method := am
           assessed_at := d.assessed_at }
  else none

/-- Pydantic revalidation of a dumped HospitalAdmissionSummaryCard. -/
def HospitalAdmissionSummaryCard.validate
    (d : HospitalAdmissionSummaryCardDump) : Option HospitalAdmissionSummaryCard :=
  (FacilityData.validate d.facility).bind fun fac =>
  (TimingData.validate d.timing).bind fun tim =>
  (RiskAssessment.validate d.medication_risk_assessment).bind fun mra =>
  some { facility := fac
         timing := tim
         diagnosis := d.diagnosis
         medication_risk_assessment := mra
         hospitalization_id := d.hospitalization_id }

/-- Embedding of PydanticJSONB.process_bind_param (src/database/types.py
lines 36 to 60) at the binding declared in src/models/hospital_summary_db.py
line 50, where the bound Pydantic model is HospitalAdmissionSummaryCard.
The None branch returns None and a model instance is converted with
model_dump; the source also passes raw dicts through unchanged, which in
this typed embedding coincides with the dump representation itself. -/
def processBindParam :
    Option HospitalAdmissionSummaryCard → Option HospitalAdmissionSummaryCardDump
  | none => none
  | some c => some c.model_dump

/-- Embedding of PydanticJSONB.process_result_value (src/database/types.py
lines 62 to 81) at the same binding: None maps to None, and a stored dict is
turned back into the model by constructing it from keyword arguments, which
revalidates every field; the outer none models the ValidationError raised
when revalidation fails. -/
def processResultValue :
    Option HospitalAdmissionSummaryCardDump → Option (Option HospitalAdmissionSummaryCard)
  | none => some none
  | some d => (HospitalAdmissionSummaryCard.validate d).map some

/-
Clinical section payloads. The orchestration layer moves these values
around without ever reading their fields (spec section 1 treats domain
payload shapes as opaque to the orchestrator), so each is embedded as a
single token structure standing for the corresponding Pydantic model.
-/

/-- PresentationData payload placeholder (presentation/model.py). -/
structure PresentationData where
  token : Nat
  deriving DecidableEq, Repr

/-- HistoryData payload placeholder (history/model.py). -/
structure HistoryData where
  token : Nat
  deriving DecidableEq, Repr

/-- FindingsData payload placeholder (findings/model.py). -/
structure FindingsData where
  token : Nat
  deriving DecidableEq, Repr

/-- AssessmentData payload placeholder (assessment/model.py). -/
structure AssessmentData where
  token : Nat
  deriving DecidableEq, Repr

/-- CourseData payload placeholder (course/model.py). -/
structure CourseData where
  token : Nat
  deriving DecidableEq, Repr

/-- FollowUpData payload placeholder (follow_up/model.py). -/
structure FollowUpData where
  token : Nat
  deriving DecidableEq, Repr

/-- Treatment payload placeholder (shared_models.py); the orchestrator only
passes treatment lists through. -/
structure Treatment where
  token : Nat
  deriving DecidableEq, Repr

/-- PresentationExtractionResponse (presentation/model.py). -/
structure PresentationExtractionResponse where
  patient_presentation : PresentationData
  patient_id : Option String := none
  hospitalization_id : Option String := none
  deriving DecidableEq, Repr

/-- HistoryExtractionResponse (history/model.py). -/
structure HistoryExtractionResponse where
  relevant_history : HistoryData
  patient_id : Option String := none
  hospitalization_id : Option String := none
  deriving DecidableEq, Repr

/-- FindingsExtractionResponse (findings/model.py). -/
structure FindingsExtractionResponse where
  clinical_findings : FindingsData
  patient_id : Option String := none
  hospitalization_id : Option String := none
  deriving DecidableEq, Repr

/-- AssessmentExtractionResponse (assessment/model.py). -/
structure AssessmentExtractionResponse where
  clinical_assessment : AssessmentData
  patient_id : Option String := none
  hospitalization_id : Option String := none
  deriving DecidableEq, Repr

/-- CourseExtractionResponse (course/model.py). -/
structure CourseExtractionResponse where
  hospital_course : CourseData
  patient_id : Option String := none
  hospitalization_id : Option String := none
  deriving DecidableEq, Repr

/-- FollowUpExtractionResponse (follow_up/model.py). -/
structure FollowUpExtractionResponse where
  follow_up_plan : FollowUpData
  patient_id : Option String := none
  hospitalization_id : Option String := none
  deriving DecidableEq, Repr

/-- TreatmentsExtractionResponse (treatments/model.py). -/
structure TreatmentsExtractionResponse where
  treatments_procedures : List Treatment := []
  patient_id : Option String := none
  hospitalization_id : Option String := none
  deriving DecidableEq, Repr

/-- ClinicalSummaryMetadata (clinical_summary_entity/aggregator.py lines 40
to 46); parsed_at is embedded as seconds since an epoch. -/
structure ClinicalSummaryMetadata where
  hospitalization_id : Option String := none
  patient_id : Option String := none
  raw_summary_text : Option String := none
  parsed_at : Int
  parsing_model_version : Option String := none
  confidence_score : Option Rat := none
  deriving DecidableEq, Repr

/-- ClinicalSummary (aggregator.py lines 49 to 58). -/
structure ClinicalSummary where
  patient_presentation : PresentationData
  relevant_history : HistoryData
  clinical_findings : FindingsData
  clinical_assessment : AssessmentData
  hospital_course : CourseData
  follow_up_plan : FollowUpData
  treatments_procedures : List Treatment := []
  lab_results : List LabTest := []
  lab_summary : LabSummary := {}
  deriving DecidableEq, Repr

/-- ClinicalSummaryResult (aggregator.py lines 64 to 66). -/
structure ClinicalSummaryResult where
  summary : ClinicalSummary
  metadata : ClinicalSummaryMetadata
  deriving DecidableEq, Repr

/-- Embedding of
ClinicalAndHospitalSummaryExtractionHandler._assemble_clinical_summary
(handler lines 244 to 321): every response gets patient_id and the
generated hospitalization_id written over whatever the capability
extracted (model_copy with update), the summary is stitched from the
response payloads with the lab summary fallback, and the metadata carries
the generated hospitalization_id. -/
def assembleClinicalSummary
    (nowEpoch : Int) (modelName : String)
    (patient_id hospitalization_id raw_text : String)
    (presentation_resp : PresentationExtractionResponse)
    (history_resp : HistoryExtractionResponse)
    (findings_resp : FindingsExtractionResponse)
    (assessment_resp : AssessmentExtractionResponse)
    (course_resp : CourseExtractionResponse)
    (follow_up_resp : FollowUpExtractionResponse)
    (treatments_resp : TreatmentsExtractionResponse)
    (labs_resp : LabExtractionResponse) : ClinicalSummaryResult :=
  let presentation_resp :=
    { presentation_resp with patient_id := some patient_id, hospitalization_id := some hospitalization_id }
  let history_resp :=
    { history_resp with patient_id := some patient_id, hospitalization_id := some hospitalization_id }
  let findings_resp :=
    { findings_resp with patient_id := some patient_id, hospitalization_id := some hospitalization_id }
  let assessment_resp :=
    { assessment_resp with patient_id := some patient_id, hospitalization_id := some hospitalization_id }
  let course_resp :=
    { course_resp with patient_id := some patient_id, hospitalization_id := some hospitalization_id }
  let follow_up_resp :=
    { follow_up_resp with patient_id := some patient_id, hospitalization_id := some hospitalization_id }
  let treatments_resp :=
    { treatments_resp with patient_id := some patient_id, hospitalization_id := some hospitalization_id }
  let labs_resp :=
    { labs_resp with patient_id := some patient_id, hospitalization_id := some hospitalization_id }
  let summary : ClinicalSummary :=
    { patient_presentation := presentation_resp.patient_presentation
      relevant_history := history_resp.relevant_history
      clinical_findings := findings_resp.clinical_findings
      clinical_assessment := assessment_resp.clinical_assessment
      hospital_course := course_resp.hospital_course
      follow_up_plan := follow_up_resp.follow_up_plan
      treatments_procedures := treatments_resp.treatments_procedures
      lab_results := labs_resp.lab_results
      lab_summary := ensureLabSummary labs_resp }
  let metadata : ClinicalSummaryMetadata :=
    { hospitalization_id := some hospitalization_id
      patient_id := some patient_id
      raw_summary_text := some raw_text
      parsed_at := nowEpoch
      parsing_model_version := some modelName }
  { summary := summary, metadata := metadata }

/-- Embedding of
ClinicalAndHospitalSummaryExtractionHandler._assemble_hospital_summary
(handler lines 323 to 360): the assessed_at timestamp is backfilled when
the capability left it empty, and the card receives the generated
hospitalization_id, overriding the one the facility timing capability
extracted from the text. -/
def assembleHospitalSummary (nowIso : String) (hospitalization_id : String)
    (facility_timing_resp : FacilityTimingExtractionResponse)
    (diagnosis_resp : DiagnosisExtractionResponse)
    (medication_risk_resp : MedicationRiskExtractionResponse) : HospitalAdmissionSummaryCard :=
  let mra := medication_risk_resp.medication_risk_assessment
  let mra := if mra.assessed_at = "" then { mra with assessed_at := nowIso } else mra
  { facility := facility_timing_resp.facility
    timing := facility_timing_resp.timing
    diagnosis := diagnosis_resp.diagnosis
    medication_risk_assessment := mra
    hospitalization_id := some hospitalization_id }

/-- Failure of one capability invocation after the invoker gave up. -/
structure CapabilityFailure where
  message : String
  deriving DecidableEq, Repr

/-- Awaited outcomes of the eleven capability invocations started by
process step 1 (handler lines 142 to 156), in task list order. -/
structure ProcessOutcomes where
  presentation : Except CapabilityFailure PresentationExtractionResponse
  history : Except CapabilityFailure HistoryExtractionResponse
  findings : Except CapabilityFailure FindingsExtractionResponse
  assessment : Except CapabilityFailure AssessmentExtractionResponse
  course : Except CapabilityFailure CourseExtractionResponse
  follow_up : Except CapabilityFailure FollowUpExtractionResponse
  treatments : Except CapabilityFailure TreatmentsExtractionResponse
  labs : Except CapabilityFailure LabExtractionResponse
  facility_timing : Except CapabilityFailure FacilityTimingExtractionResponse
  diagnosis : Except CapabilityFailure DiagnosisExtractionResponse
  medication_risk : Except CapabilityFailure MedicationRiskExtractionResponse

/-- The eleven successful responses after the join point. -/
structure GatheredResponses where
  presentation : PresentationExtractionResponse
  history : HistoryExtractionResponse
  findings : FindingsExtractionResponse
  assessment : AssessmentExtractionResponse
  course : CourseExtractionResponse
  follow_up : FollowUpExtractionResponse
  treatments : TreatmentsExtractionResponse
  labs : LabExtractionResponse
  facility_timing : FacilityTimingExtractionResponse
  diagnosis : DiagnosisExtractionResponse
  medication_risk : MedicationRiskExtractionResponse

/-- Join semantics of asyncio.gather over the eleven tasks (handler line
171): if any task raised, the gather raises and no responses are
delivered; otherwise all responses are delivered. -/
def ProcessOutcomes.gather (o : ProcessOutcomes) : Except CapabilityFailure GatheredResponses := do
  let presentation ← o.presentation
  let history ← o.history
  let findings ← o.findings
  let assessment ← o.assessment
  let course ← o.course
  let follow_up ← o.follow_up
  let treatments ← o.treatments
  let labs ← o.labs
  let facility_timing ← o.facility_timing
  let diagnosis ← o.diagnosis
  let medication_risk ← o.medication_risk
  return { presentation := presentation
           history := history
           findings := findings
           assessment := assessment
           course := course
           follow_up := follow_up
           treatments := treatments
           labs := labs
           facility_timing := facility_timing
           diagnosis := diagnosis
           medication_risk := medication_risk }

/-- True when at least one of the eleven capability invocations failed. -/
def exceptFailed {ε α : Type} : Except ε α → Bool
  | Except.error _ => true
  | Except.ok _ => false

/-- True when at least one capability outcome of the process call is a
failure. -/
def ProcessOutcomes.anyFailed (o : ProcessOutcomes) : Bool :=
  exceptFailed o.presentation || exceptFailed o.history || exceptFailed o.findings ||
  exceptFailed o.assessment || exceptFailed o.course || exceptFailed o.follow_up ||
  exceptFailed o.treatments || exceptFailed o.labs || exceptFailed o.facility_timing ||
  exceptFailed o.diagnosis || exceptFailed o.medication_risk

/-- One repository create operation issued by the persistence step of
process, with the column values the repositories derive from the assembled
composites: the clinical repository stores
summary_result.metadata.hospitalization_id
(clinical_summary_repository.py line 66) and the hospital repository
stores summary_card.hospitalization_id and the derived length of stay
(hospital_summary_repository.py lines 73 to 87). -/
inductive CreateCall
  | clinical (patient_id : String) (hospitalization_id : Option String)
  | hospital (patient_id : String) (hospitalization_id : Option String) (length_of_stay_days : Int)
  deriving DecidableEq, Repr

/-- Correlation identifier column written by a create call. -/
def CreateCall.correlationId : CreateCall → Option String
  | .clinical _ h => h
  | .hospital _ h _ => h

/-- Summary dictionary returned by a successful process call (handler lines
219 to 234). -/
structure ProcessReturn where
  hospitalization_id : String
  clinical_patient_id : String
  clinical_hospitalization_id : Option String
  hospital_patient_id : String
  hospital_hospitalization_id : Option String
  hospital_length_of_stay_days : Int
  deriving DecidableEq, Repr

/-- Embedding of ClinicalAndHospitalSummaryExtractionHandler.process
(handler lines 87 to 242). The genId argument is the value returned by
uuid.uuid4 at line 130, generated before any capability is invoked. The
second component lists the repository create operations reached by the
call: none when the gather raised, and the clinical and hospital creates
(handler lines 206 to 211) when all eleven capabilities succeeded. -/
def process (parseIso : String → Option Int) (nowEpoch : Int) (nowIso : String)
    (modelName : String) (genId : String) (patient_id raw_text : String)
    (o : ProcessOutcomes) : Except CapabilityFailure ProcessReturn × List CreateCall :=
  match o.gather with
  | Except.error e => (Except.error e, [])
  | Except.ok g =>
    let clinical := assembleClinicalSummary nowEpoch modelName patient_id genId raw_text
      g.presentation g.history g.findings g.assessment g.course g.follow_up g.treatments g.labs
    let hospital := assembleHospitalSummary nowIso genId
      g.facility_timing g.diagnosis g.medication_risk
    let creates :=
      [CreateCall.clinical patient_id clinical.metadata.hospitalization_id,
       CreateCall.hospital patient_id hospital.hospitalization_id
         (hospital.length_of_stay_days parseIso)]
    (Except.ok
      { hospitalization_id := genId
        clinical_patient_id := patient_id
        clinical_hospitalization_id := clinical.metadata.hospitalization_id
        hospital_patient_id := patient_id
        hospital_hospitalization_id := hospital.hospitalization_id
        hospital_length_of_stay_days := hospital.length_of_stay_days parseIso },
     creates)

/-- The eleven capabilities wired into the handler and the hospital
aggregator. -/
inductive Capability
  | presentation
  | history
  | findings
  | assessment
  | course
  | follow_up
  | treatments
  | labs
  | facility_timing
  | diagnosis
  | medication_risk
  deriving DecidableEq, Repr

/-- Concurrency structure of HospitalAdmissionSummaryCardExtractor.extract
(hospital_admission_summary_card/aggregator.py lines 48 to 71): the
facility timing tool is awaited alone first, then diagnosis and medication
risk are gathered concurrently. Each inner list is one batch; a batch is
only started after every capability of the previous batch completed, and
capabilities within one batch run concurrently. -/
def hospitalAggregatorSchedule : List (List Capability) :=
  [[Capability.facility_timing], [Capability.diagnosis, Capability.medication_risk]]

/-- Concurrency structure of step 1 of
ClinicalAndHospitalSummaryExtractionHandler.process (handler lines 142 to
171): all eleven tools, the facility timing tool included, are gathered in
one concurrent batch. -/
def handlerSchedule : List (List Capability) :=
  [[Capability.presentation, Capability.history, Capability.findings,
    Capability.assessment, Capability.course, Capability.follow_up,
    Capability.treatments, Capability.labs, Capability.facility_timing,
    Capability.diagnosis, Capability.medication_risk]]

/-- Index of the batch in which a capability is invoked. -/
def phaseOf (sched : List (List Capability)) (c : Capability) : Option Nat :=
  sched.findIdx? (fun batch => batch.contains c)

/-- completesBefore sched a b holds when every execution of the schedule
finishes a before b starts: both occur and the batch of a is strictly
earlier than the batch of b. -/
def completesBefore (sched : List (List Capability)) (a b : Capability) : Bool :=
  match phaseOf sched a, phaseOf sched b with
  | some i, some j => i < j
  | _, _ => false

/-- invokedConcurrently sched a b holds when a and b are started in the
same gather batch. -/
def invokedConcurrently (sched : List (List Capability)) (a b : Capability) : Bool :=
  match phaseOf sched a, phaseOf sched b with
  | some i, some j => i == j && a != b
  | _, _ => false

/-- Domain validation failures raised by
HospitalSummaryExtractor._validate_extraction
(src/extractors/hospital_summary_extractor.py lines 99 to 140). -/
inductive HospValidationFailure
  | negativeLengthOfStay (value : Int)
  | missingFacilityName
  | missingPrimaryDiagnosis
  deriving DecidableEq, Repr

/-- Message rendering of core.exceptions.ValidationError for the three
validation branches (quoting of the field name omitted). -/
def HospValidationFailure.message : HospValidationFailure → String
  | .negativeLengthOfStay _ =>
    "Validation failed for field length_of_stay_days: Length of stay cannot be negative"
  | .missingFacilityName =>
    "Validation failed for field facility.facility_name: Facility name is required"
  | .missingPrimaryDiagnosis =>
    "Validation failed for field diagnosis.primary_diagnosis: Primary diagnosis is required"

/-- Embedding of HospitalSummaryExtractor._validate_extraction
(hospital_summary_extractor.py lines 99 to 140); the hospitalization_id
check and the 365 day check only log and raise nothing. -/
def HospitalSummaryExtractor.validate_extraction (parseIso : String → Option Int)
    (summary_card : HospitalAdmissionSummaryCard) : Except HospValidationFailure Unit :=
  if summary_card.length_of_stay_days parseIso < 0 then
    Except.error (HospValidationFailure.negativeLengthOfStay
      (summary_card.length_of_stay_days parseIso))
  else if summary_card.facility.facility_name = "" then
    Except.error HospValidationFailure.missingFacilityName
  else if summary_card.diagnosis.primary_diagnosis = "" then
    Except.error HospValidationFailure.missingPrimaryDiagnosis
  else
    Except.ok ()

/-- Embedding of the Python test `not s or not s.strip()` used by
BaseExtractor.validate_input (core/base_extractor.py lines 80 to 103):
true exactly for the empty string and for whitespace only strings. -/
def isBlank (s : String) : Bool :=
  s.toList.all Char.isWhitespace

/-- Error taxonomy surfaced by the table extractors
(core/exceptions.py): LLMExtractionError already prefixed with the
extractor name, and ValidationError. -/
inductive ExtractorFailure
  | llmExtractionError (extractor_name message : String)
  | validationError (message : String)
  deriving DecidableEq, Repr

/-- Embedding of HospitalSummaryExtractor.extract
(hospital_summary_extractor.py lines 41 to 97). validate_input runs before
the try block and surfaces ValidationError directly; the aggregator run
and _validate_extraction both sit inside the try block whose
except Exception clause re-raises every failure, a ValidationError from
_validate_extraction included, as LLMExtractionError. The aggregator
outcome is passed in as an argument since its tools call an external
model. -/
def HospitalSummaryExtractor.extract (parseIso : String → Option Int)
    (patient_id raw_text : String)
    (aggregator_outcome : Except String HospitalAdmissionSummaryCard) :
    Except ExtractorFailure (String × HospitalAdmissionSummaryCard) :=
  if isBlank patient_id then
    Except.error (ExtractorFailure.validationError "patient_id is required and cannot be empty")
  else if isBlank raw_text then
    Except.error (ExtractorFailure.validationError "raw_text is required and cannot be empty")
  else
    match aggregator_outcome with
    | Except.error msg =>
      Except.error (ExtractorFailure.llmExtractionError "hospital_summary"
        ("Hospital summary extraction failed: " ++ msg))
    | Except.ok summary_card =>
      match HospitalSummaryExtractor.validate_extraction parseIso summary_card with
      | Except.error v =>
        Except.error (ExtractorFailure.llmExtractionError "hospital_summary"
          ("Hospital summary extraction failed: " ++ v.message))
      | Except.ok _ => Except.ok (patient_id, summary_card)

/-- Repository error taxonomy (core/exceptions.py): DuplicateRecordError is
a subclass of DatabaseError raised only by the hospital repository. -/
inductive RepoError
  | duplicateRecordError (field value : String)
  | databaseError (message : String)
  deriving DecidableEq, Repr

/-- True exactly for DuplicateRecordError. -/
def RepoError.isDuplicate : RepoError → Bool
  | .duplicateRecordError _ _ => true
  | _ => false

/-- Information carried by a sqlalchemy IntegrityError: whether str(e.orig)
mentions the hospitalization_id column, which is what the hospital
repository inspects. -/
structure IntegrityErrorInfo where
  origMentionsHospitalizationId : Bool
  deriving DecidableEq, Repr

/-- Modelled from the spec: the storage tables themselves are declared in
schema.sql and repositories/models/hospital_summary_db.py, neither of which
is under src; the spec states that uniqueness of the correlation id is
enforced by a storage layer constraint on the correlation id column. The
database state is abstracted to the list of hospitalization_id values
already stored; inserting a duplicate non null value raises an
IntegrityError whose message names the column, and a null value never
conflicts. -/
def insertWithUniqueHospitalizationId (db : List String) (hospId : Option String) :
    Except IntegrityErrorInfo (List String) :=
  match hospId with
  | some h =>
    if h ∈ db then Except.error { origMentionsHospitalizationId := true }
    else Except.ok (db ++ [h])
  | none => Except.ok db

/-- Embedding of the except IntegrityError clause of
HospitalSummaryRepository.create (hospital_summary_repository.py lines 104
to 128): DuplicateRecordError is raised only when the card carried a
hospitalization_id and the error text mentions the column; otherwise a
plain DatabaseError is raised. -/
def hospitalHandleIntegrityError (card_hospitalization_id : Option String)
    (e : IntegrityErrorInfo) : RepoError :=
  match card_hospitalization_id with
  | some h =>
    if e.origMentionsHospitalizationId then
      RepoError.duplicateRecordError "hospitalization_id" h
    else
      RepoError.databaseError "Failed to create record"
  | none => RepoError.databaseError "Failed to create record"

/-- Embedding of the except IntegrityError clause of
ClinicalSummaryRepository.create (clinical_summary_repository.py lines 122
to 125): every IntegrityError is re-raised as DatabaseError. -/
def clinicalHandleIntegrityError (_e : IntegrityErrorInfo) : RepoError :=
  RepoError.databaseError "Failed to create record"

/-- HospitalSummaryRepository.create projected onto the hospitalization_id
uniqueness behaviour: insert the value of summary_card.hospitalization_id
under the unique constraint and classify an IntegrityError with the
except clause embedded above. -/
def HospitalSummaryRepository.create (db : List String)
    (summary_card : HospitalAdmissionSummaryCard) : Except RepoError (List String) :=
  match insertWithUniqueHospitalizationId db summary_card.hospitalization_id with
  | Except.ok db2 => Except.ok db2
  | Except.error e => Except.error (hospitalHandleIntegrityError summary_card.hospitalization_id e)

/-- ClinicalSummaryRepository.create projected the same way, under the
hypothetical uniqueness constraint on its hospitalization_id column (the
sqlalchemy model in repositories/models/clinical_summary_db.py declares
the column with index=True and no unique constraint; this definition shows
what the except clause yields when the storage layer does enforce
uniqueness). -/
def ClinicalSummaryRepository.createUnderUniqueConstraint (db : List String)
    (hospitalization_id : Option String) : Except RepoError (List String) :=
  match insertWithUniqueHospitalizationId db hospitalization_id with
  | Except.ok db2 => Except.ok db2
  | Except.error e => Except.error (clinicalHandleIntegrityError e)

/-- PydanticAISettings (src/pydantic_ai_settings.py lines 15 to 51) with
its declared defaults. The field constraints are max_retries between 0 and
5 and timeout_seconds at least 30. -/
structure PydanticAISettings where
  model_name : String := "openai:gpt-4o-mini"
  api_key : Option String := none
  max_retries : Nat := 2
  temperature : Rat := 0
  max_workers : Nat := 6
  timeout_seconds : Nat := 180
  deriving DecidableEq, Repr

/-- The module level settings instance constructed from defaults. -/
def pydantic_ai_settings : PydanticAISettings := {}

/-- Names of the six configuration fields of PydanticAISettings. -/
inductive SettingsField
  | modelName
  | apiKey
  | maxRetries
  | temperature
  | maxWorkers
  | timeoutSeconds
  deriving DecidableEq, Repr

/-- Configuration fields referenced anywhere in
src/extractors/hospital_admission_summary_card/facility_timing/tool.py:
the post init hook reads api_key (line 41) and build_facility_timing_agent
reads model_name and max_retries (lines 26 and 29). The run method (lines
50 to 68) awaits self._agent.run(prompt) directly, wraps it in no timeout
primitive, and reads no further settings. -/
def facilityTimingToolSettingsRead : List SettingsField :=
  [SettingsField.apiKey, SettingsField.modelName, SettingsField.maxRetries]

/-- Constructor arguments passed to the pydantic_ai Agent by
build_facility_timing_agent: model, output type (implicit in the Lean
type), system prompt and retries. No timeout argument exists in the call. -/
structure Agent where
  model : String
  system_prompt : String
  retries : Nat
  deriving DecidableEq, Repr

/-- Embedding of build_facility_timing_agent (facility_timing/tool.py lines
20 to 30). The default prompt text lives in the prompts module, which is
out of spec scope, so it is passed in as default_system_prompt. -/
def build_facility_timing_agent (settings : PydanticAISettings)
    (default_system_prompt : String)
    (model_name : Option String) (system_prompt_override : Option String) : Agent :=
  { model := model_name.getD settings.model_name
    system_prompt := system_prompt_override.getD default_system_prompt
    retries := settings.max_retries }

/-- Modelled from the spec: the bounded retry loop of one capability
invocation runs inside the external pydantic_ai Agent, whose code is not
part of this repository; spec section 4.2 specifies the invoker as
retrying up to maxRetries times after the initial attempt on transient
failure and failing on exhaustion. attempt i is the outcome of the i-th
attempt; the remaining argument counts the retries still allowed. The
first component of the result is the number of attempts executed. -/
def invokeAttemptsFrom {α : Type} (attempt : Nat → Except CapabilityFailure α) :
    Nat → Nat → Nat × Except CapabilityFailure α
  | 0, i => (i + 1, attempt i)
  | Nat.succ remaining, i =>
    match attempt i with
    | Except.ok a => (i + 1, Except.ok a)
    | Except.error _ => invokeAttemptsFrom attempt remaining (i + 1)

/-- Capability invocation with the retry budget the repository configures:
build_facility_timing_agent passes retries equal to
pydantic_ai_settings.max_retries. -/
def invokeWithRetries {α : Type} (attempt : Nat → Except CapabilityFailure α)
    (maxRetries : Nat) : Nat × Except CapabilityFailure α :=
  invokeAttemptsFrom attempt maxRetries 0

/-
Concrete example values used to evaluate the embedded operations on
explicit inputs.
-/

/-- Example address. -/
def sampleAddress : Address :=
  { street := none, city := "Springfield", state := "IL", zip := none }

/-- Example facility. -/
def sampleFacility : FacilityData :=
  { facility_name := "General Hospital"
    facility_id := none
    facility_type := FacilityType.acute_care
    address := some sampleAddress }

/-- Example timing: admission four days before discharge under
sampleParseIso. -/
def sampleTiming : TimingData :=
  { admission_date := "2025-10-01T00:00:00Z"
    discharge_date := "2025-10-05T00:00:00Z"
    admission_source := some AdmissionSource.emergency_dept
    discharge_disposition := some DischargeDisposition.home }

/-- Example diagnosis data. -/
def sampleDiagnosis : DiagnosisData :=
  { primary_diagnosis := "Pneumonia"
    primary_diagnosis_evidence := "Assessment section"
    diagnosis_category := "respiratory"
    secondary_diagnoses := [{ diagnosis := "Acute kidney injury", evidence := "Labs section" }] }

/-- Example note metadata for the risk assessment. -/
def sampleNoteMetadata : Metadata :=
  { note_type := "inpatient_admission", sections_reviewed := ["HPI", "Labs"] }

/-- Example clinical context. -/
def sampleClinicalContext : ClinicalContext :=
  { presentation_type := PresentationType.A
    presentation_type_rationale := "medication related presentation"
    primary_reason_for_presentation := "chest pain after dose increase"
    is_medication_related := true
    medication_relationship_explanation := "anticoagulant accumulation"
    patient_clinical_status := "stable_at_baseline"
    organ_dysfunction := ["renal"] }

/-- Example risk scoring. -/
def sampleRiskScoring : RiskScoring :=
  { positive_evidence_points := 4
    negative_evidence_points := 1
    net_score := 3
    score_breakdown := "four positive minus one negative" }

/-- Example likelihood percentage. -/
def sampleLikelihood : LikelihoodPercentage :=
  { percentage := 70, evidence := "strong temporal association" }

/-- Example risk factor. -/
def sampleRiskFactor : RiskFactor :=
  { factor := "supratherapeutic INR"
    evidence := "INR 9 documented in Labs"
    severity := RiskSeverity.major
    severity_rationale := "bleeding risk"
    implicated_medications := ["warfarin 5mg"]
    mechanism := "warfarin accumulation"
    temporal_relationship := "dose increased one week before admission" }

/-- Example complete risk assessment. -/
def sampleRiskAssessment : RiskAssessment :=
  { metadata := sampleNoteMetadata
    clinical_context := sampleClinicalContext
    risk_scoring := sampleRiskScoring
    likelihood_percentage := sampleLikelihood
    risk_level := RiskLevel.high
    risk_factors := [sampleRiskFactor]
    alternative_explanations :=
      [{ explanation := "community acquired infection"
         likelihood := "low"
         supporting_evidence := "no fever documented"
         impact_on_medication_assessment := "minimal" }]
    negative_findings := ["no overt bleeding"]
    confidence_score := 9 / 10
    confidence_rationale := "clear documentation"
    assessed_at := "2025-10-05T12:00:00Z" }

/-- Example summary card carrying hospitalization_id h-1. -/
def sampleCard : HospitalAdmissionSummaryCard :=
  { facility := sampleFacility
    timing := sampleTiming
    diagnosis := sampleDiagnosis
    medication_risk_assessment := sampleRiskAssessment
    hospitalization_id := some "h-1" }

/-- Example card whose facility name is empty, so domain validation
fails. -/
def invalidFacilityCard : HospitalAdmissionSummaryCard :=
  { sampleCard with
    facility := { facility_name := "", facility_id := none
                  facility_type := FacilityType.acute_care, address := none } }

/-- Concrete ISO parser assigning epochs to the two sample dates. -/
def sampleParseIso : String → Option Int := fun s =>
  if s = "2025-10-01T00:00:00Z" then some 0
  else if s = "2025-10-05T00:00:00Z" then some 345600
  else none

/-- Example lab test. -/
def sampleLabTest : LabTest :=
  { id := "lab_001"
    test_name := "Creatinine"
    value := StrOrNum.n 2
    status := LabStatus.abnormal_high }

/-- Example labs response whose summary lacks counts. -/
def sampleLabsResp : LabExtractionResponse :=
  { lab_results := [sampleLabTest], lab_summary := {} }

/-- Labs response where the capability populated a nonzero critical count
but left total_tests at zero. -/
def c9LabsResp : LabExtractionResponse :=
  { lab_results := []
    lab_summary :=
      { total_tests := 0, critical_count := 5, abnormal_count := 0, normal_count := 0 } }

/-- Labs response where the capability populated all counts. -/
def c9PosResp : LabExtractionResponse :=
  { lab_results := []
    lab_summary :=
      { total_tests := 3, critical_count := 1, abnormal_count := 1, normal_count := 1 } }

/-- Capability outcomes where all eleven invocations succeeded; the
facility timing and presentation capabilities extracted the document
identifier doc-77 from the text. -/
def sampleOutcomes : ProcessOutcomes :=
  { presentation := Except.ok
      { patient_presentation := { token := 1 }, hospitalization_id := some "doc-77" }
    history := Except.ok { relevant_history := { token := 2 } }
    findings := Except.ok { clinical_findings := { token := 3 } }
    assessment := Except.ok { clinical_assessment := { token := 4 } }
    course := Except.ok { hospital_course := { token := 5 } }
    follow_up := Except.ok { follow_up_plan := { token := 6 } }
    treatments := Except.ok { treatments_procedures := [{ token := 7 }] }
    labs := Except.ok sampleLabsResp
    facility_timing := Except.ok
      { facility := sampleFacility, timing := sampleTiming, hospitalization_id := some "doc-77" }
    diagnosis := Except.ok { diagnosis := sampleDiagnosis }
    medication_risk := Except.ok { medication_risk_assessment := sampleRiskAssessment } }

/-- Capability outcomes where the labs invocation failed after its
retries. -/
def failingOutcomes : ProcessOutcomes :=
  { sampleOutcomes with labs := Except.error { message := "labs retries exhausted" } }

/-- Create calls reached by a successful process call with generated id
uuid-1 on the sample outcomes. -/
def c1CallsA : List CreateCall :=
  [CreateCall.clinical "P-1" (some "uuid-1"), CreateCall.hospital "P-1" (some "uuid-1") 4]

/-- Create calls for a second process call with generated id uuid-2. -/
def c1CallsB : List CreateCall :=
  [CreateCall.clinical "P-1" (some "uuid-2"), CreateCall.hospital "P-1" (some "uuid-2") 4]

/-- Return summary of the first sample process call. -/
def c1ReturnA : ProcessReturn :=
  { hospitalization_id := "uuid-1"
    clinical_patient_id := "P-1"
    clinical_hospitalization_id := some "uuid-1"
    hospital_patient_id := "P-1"
    hospital_hospitalization_id := some "uuid-1"
    hospital_length_of_stay_days := 4 }

/-- Return summary of the second sample process call. -/
def c1ReturnB : ProcessReturn :=
  { hospitalization_id := "uuid-2"
    clinical_patient_id := "P-1"
    clinical_hospitalization_id := some "uuid-2"
    hospital_patient_id := "P-1"
    hospital_hospitalization_id := some "uuid-2"
    hospital_length_of_stay_days := 4 }

/-
Theorems. Helper lemmas first, then one theorem per claim.
-/

/-- Enum roundtrip for FacilityType. -/
theorem facilityType_fromValue_roundtrip (e : FacilityType) :
    FacilityType.fromValue e.value = some e := by
  cases e <;> rfl

/-- Enum roundtrip for AdmissionSource. -/
theorem admissionSource_fromValue_roundtrip (e : AdmissionSource) :
    AdmissionSource.fromValue e.value = some e := by
  cases e <;> rfl

/-- Enum roundtrip for DischargeDisposition. -/
theorem dischargeDisposition_fromValue_roundtrip (e : DischargeDisposition) :
    DischargeDisposition.fromValue e.value = some e := by
  cases e <;> rfl

/-- Enum roundtrip for RiskSeverity. -/
theorem riskSeverity_fromValue_roundtrip (e : RiskSeverity) :
    RiskSeverity.fromValue e.value = some e := by
  cases e <;> rfl

/-- Enum roundtrip for RiskLevel. -/
theorem riskLevel_fromValue_roundtrip (e : RiskLevel) :
    RiskLevel.fromValue e.value = some e := by
  cases e <;> rfl

/-- Enum roundtrip for AssessmentMethod. -/
theorem assessmentMethod_fromValue_roundtrip (e : AssessmentMethod) :
    AssessmentMethod.fromValue e.value = some e := by
  cases e <;> rfl

/-- Enum roundtrip for PresentationType. -/
theorem presentationType_fromValue_roundtrip (e : PresentationType) :
    PresentationType.fromValue e.value = some e := by
  cases e <;> rfl

/-- Optional enum fields also roundtrip. -/
theorem validateOptionalEnum_map {α : Type} (p : String → Option α) (f : α → String)
    (hp : ∀ e, p (f e) = some e) (o : Option α) :
    validateOptionalEnum p (o.map f) = some o := by
  cases o with
  | none => rfl
  | some e => simp [validateOptionalEnum, hp]

/-- Revalidation of a dumped FacilityData restores it. -/
theorem facilityData_validate_dump (f : FacilityData) :
    FacilityData.validate f.model_dump = some f := by
  simp [FacilityData.validate, FacilityData.model_dump, facilityType_fromValue_roundtrip]

/-- Revalidation of a dumped TimingData restores it. -/
theorem timingData_validate_dump (t : TimingData) :
    TimingData.validate t.model_dump = some t := by
  simp [TimingData.validate, TimingData.model_dump,
    validateOptionalEnum_map AdmissionSource.fromValue AdmissionSource.value
      admissionSource_fromValue_roundtrip,
    validateOptionalEnum_map DischargeDisposition.fromValue DischargeDisposition.value
      dischargeDisposition_fromValue_roundtrip]

/-- Revalidation of a dumped ClinicalContext restores it. -/
theorem clinicalContext_validate_dump (c : ClinicalContext) :
    ClinicalContext.validate c.model_dump = some c := by
  simp [ClinicalContext.validate, ClinicalContext.model_dump, presentationType_fromValue_roundtrip]

/-- Revalidation of a dumped RiskFactor restores it. -/
theorem riskFactor_validate_dump (r : RiskFactor) :
    RiskFactor.validate r.model_dump = some r := by
  simp [RiskFactor.validate, RiskFactor.model_dump, riskSeverity_fromValue_roundtrip]

/-- Revalidation of a dumped risk factor list restores it. -/
theorem validateRiskFactors_map (l : List RiskFactor) :
    validateRiskFactors (l.map RiskFactor.model_dump) = some l := by
  induction l with
  | nil => rfl
  | cons hd tl ih => simp [validateRiskFactors, riskFactor_validate_dump, ih]

/-- Revalidation of a dumped RiskAssessment restores it, given that the
original satisfied the declared numeric constraints. -/
theorem riskAssessment_validate_dump (r : RiskAssessment)
    (h1 : 0 ≤ r.risk_scoring.positive_evidence_points)
    (h2 : 0 ≤ r.risk_scoring.negative_evidence_points)
    (h3 : 0 ≤ r.likelihood_percentage.percentage)
    (h4 : r.likelihood_percentage.percentage ≤ 100)
    (h5 : 0 ≤ r.confidence_score)
    (h6 : r.confidence_score ≤ 1) :
    RiskAssessment.validate r.model_dump = some r := by
  simp [RiskAssessment.validate, RiskAssessment.model_dump,
    clinicalContext_validate_dump, RiskScoring.validate, LikelihoodPercentage.validate,
    riskLevel_fromValue_roundtrip, validateRiskFactors_map, assessmentMethod_fromValue_roundtrip,
    h1, h2, h3, h4, h5, h6]

/-- C3: the persistence bridge round-trips. For every valid composite value
c of the bound Pydantic model type HospitalAdmissionSummaryCard (valid
meaning its fields satisfy the declared constraints, as every instance
produced by the models does), deserializing the serialized form yields the
value back field for field:
processResultValue (processBindParam (some c)) = some (some c) for
PydanticJSONB. -/
theorem C3_pydantic_jsonb_roundtrip (c : HospitalAdmissionSummaryCard)
    (h1 : 0 ≤ c.medication_risk_assessment.risk_scoring.positive_evidence_points)
    (h2 : 0 ≤ c.medication_risk_assessment.risk_scoring.negative_evidence_points)
    (h3 : 0 ≤ c.medication_risk_assessment.likelihood_percentage.percentage)
    (h4 : c.medication_risk_assessment.likelihood_percentage.percentage ≤ 100)
    (h5 : 0 ≤ c.medication_risk_assessment.confidence_score)
    (h6 : c.medication_risk_assessment.confidence_score ≤ 1) :
    processResultValue (processBindParam (some c)) = some (some c) := by
  simp [processBindParam, processResultValue,
    HospitalAdmissionSummaryCard.model_dump, HospitalAdmissionSummaryCard.validate,
    facilityData_validate_dump, timingData_validate_dump,
    riskAssessment_validate_dump c.medication_risk_assessment h1 h2 h3 h4 h5 h6]

/-- C3 witness: the sample card is valid and round-trips through the
bridge. -/
theorem C3_pydantic_jsonb_roundtrip_witness :
    processResultValue (processBindParam (some sampleCard)) = some (some sampleCard) :=
  C3_pydantic_jsonb_roundtrip sampleCard (by decide) (by decide) (by decide) (by decide)
    (by norm_num [sampleCard, sampleRiskAssessment])
    (by norm_num [sampleCard, sampleRiskAssessment])

/-- C9 counterexample: the labs capability provided a summary with a
nonempty critical count of 5 (and total_tests 0); the fallback computation
overwrites this capability provided nonempty value with 0. -/
theorem C9_fallback_overwrites_counterexample :
    c9LabsResp.lab_summary.critical_count = 5 ∧
    (ensureLabSummary c9LabsResp).critical_count = 0 := by
  constructor <;> rfl

/-- C9 amended: the fallback computation is gated solely on total_tests.
When the capability provided total_tests is positive the whole capability
summary is returned unchanged (so nothing is overwritten); otherwise all
four counts are recomputed deterministically from the raw lab results,
discarding any capability provided values of the other count fields. -/
theorem C9_amended_gated_on_total_tests (resp : LabExtractionResponse) :
    (0 < resp.lab_summary.total_tests → ensureLabSummary resp = resp.lab_summary) ∧
    (resp.lab_summary.total_tests ≤ 0 →
      ensureLabSummary resp =
        { total_tests := (resp.lab_results.length : Int)
          critical_count :=
            (resp.lab_results.countP (fun lab => lab.status == LabStatus.critical) : Int)
          abnormal_count :=
            (resp.lab_results.countP
              (fun lab => lab.status == LabStatus.abnormal_high ||
                lab.status == LabStatus.abnormal_low) : Int)
          normal_count :=
            (resp.lab_results.length : Int) -
            (resp.lab_results.countP (fun lab => lab.status == LabStatus.critical) : Int) -
            (resp.lab_results.countP
              (fun lab => lab.status == LabStatus.abnormal_high ||
                lab.status == LabStatus.abnormal_low) : Int) }) := by
  constructor
  · intro hpos
    unfold ensureLabSummary
    rw [if_pos ⟨by omega, hpos⟩]
  · intro hle
    unfold ensureLabSummary
    rw [if_neg (by rintro ⟨h1, h2⟩; omega)]

/-- C9 witness: a capability provided summary with positive total_tests is
returned unchanged. -/
theorem C9_amended_gated_on_total_tests_witness :
    0 < c9PosResp.lab_summary.total_tests ∧
    ensureLabSummary c9PosResp = c9PosResp.lab_summary :=
  ⟨by decide, (C9_amended_gated_on_total_tests c9PosResp).1 (by decide)⟩

/-- C10: for every TimingData value the derived length_of_stay_days is
nonnegative (clamped to 0 when discharge precedes admission, 0 when a date
fails to parse), so the validation branch of
HospitalSummaryExtractor._validate_extraction that raises for a negative
length of stay is unreachable. -/
theorem C10_length_of_stay_nonnegative (parseIso : String → Option Int)
    (card : HospitalAdmissionSummaryCard) :
    0 ≤ card.length_of_stay_days parseIso ∧
    ∀ v : Int, HospitalSummaryExtractor.validate_extraction parseIso card ≠
      Except.error (HospValidationFailure.negativeLengthOfStay v) := by
  have hnn : 0 ≤ card.length_of_stay_days parseIso := by
    unfold HospitalAdmissionSummaryCard.length_of_stay_days TimingData.length_of_stay_days
    cases parseIso card.timing.admission_date <;>
      cases parseIso card.timing.discharge_date <;>
      simp [le_max_left]
  refine ⟨hnn, ?_⟩
  intro v
  unfold HospitalSummaryExtractor.validate_extraction
  rw [if_neg (not_lt.mpr hnn)]
  split_ifs <;> simp

/-- C10 witness: the property instantiated at the sample parser and
card. -/
theorem C10_length_of_stay_nonnegative_witness :
    0 ≤ sampleCard.length_of_stay_days sampleParseIso ∧
    ∀ v : Int, HospitalSummaryExtractor.validate_extraction sampleParseIso sampleCard ≠
      Except.error (HospValidationFailure.negativeLengthOfStay v) :=
  C10_length_of_stay_nonnegative sampleParseIso sampleCard

/-- Shape of a process call whose gather raised: the call fails and reaches
no create operation. -/
theorem processGatherError (parseIso : String → Option Int) (nowEpoch : Int)
    (nowIso modelName genId patient_id raw_text : String) {o : ProcessOutcomes}
    {e : CapabilityFailure} (hg : o.gather = Except.error e) :
    process parseIso nowEpoch nowIso modelName genId patient_id raw_text o =
      (Except.error e, []) := by
  unfold process
  rw [hg]

/-- Shape of a process call whose gather succeeded: both create operations
and the returned summary carry the generated identifier. -/
theorem processGatherOk (parseIso : String → Option Int) (nowEpoch : Int)
    (nowIso modelName genId patient_id raw_text : String) {o : ProcessOutcomes}
    {g : GatheredResponses} (hg : o.gather = Except.ok g) :
    process parseIso nowEpoch nowIso modelName genId patient_id raw_text o =
      (Except.ok
        { hospitalization_id := genId
          clinical_patient_id := patient_id
          clinical_hospitalization_id := some genId
          hospital_patient_id := patient_id
          hospital_hospitalization_id := some genId
          hospital_length_of_stay_days :=
            (assembleHospitalSummary nowIso genId g.facility_timing g.diagnosis
              g.medication_risk).length_of_stay_days parseIso },
       [CreateCall.clinical patient_id (some genId),
        CreateCall.hospital patient_id (some genId)
          ((assembleHospitalSummary nowIso genId g.facility_timing g.diagnosis
            g.medication_risk).length_of_stay_days parseIso)]) := by
  unfold process
  rw [hg]
  rfl

/-- C1: for every successful process call, the single correlation
identifier genId (the uuid generated at line 130 before any capability
runs) is carried by every persisted record of that call, both in the
clinical and the hospital create operations and in the returned summary,
overriding any identifier a capability extracted from the text (the
conclusion holds for arbitrary capability outcomes o, so also when the
facility timing response carried a different extracted identifier); and
two process calls whose generated identifiers differ (uuid4 values are
fresh per call) never persist records with equal correlation
identifiers. -/
theorem C1_process_correlation_id_invariant
    (parseIso : String → Option Int) (nowEpoch : Int)
    (nowIso modelName genId patient_id raw_text : String)
    (o : ProcessOutcomes) (r : ProcessReturn) (calls : List CreateCall)
    (parseIso2 : String → Option Int) (nowEpoch2 : Int)
    (nowIso2 modelName2 genId2 patient_id2 raw_text2 : String)
    (o2 : ProcessOutcomes) (r2 : ProcessReturn) (calls2 : List CreateCall)
    (h : process parseIso nowEpoch nowIso modelName genId patient_id raw_text o =
      (Except.ok r, calls))
    (h2 : process parseIso2 nowEpoch2 nowIso2 modelName2 genId2 patient_id2 raw_text2 o2 =
      (Except.ok r2, calls2))
    (hne : genId ≠ genId2) :
    (∀ c ∈ calls, c.correlationId = some genId) ∧
    r.hospitalization_id = genId ∧
    r.clinical_hospitalization_id = some genId ∧
    r.hospital_hospitalization_id = some genId ∧
    (∀ c ∈ calls, ∀ d ∈ calls2, c.correlationId ≠ d.correlationId) := by
  cases hgo : o.gather with
  | error e =>
    rw [processGatherError parseIso nowEpoch nowIso modelName genId patient_id raw_text hgo]
      at h
    exact absurd (congrArg Prod.fst h) (by simp)
  | ok g =>
    rw [processGatherOk parseIso nowEpoch nowIso modelName genId patient_id raw_text hgo] at h
    cases hgo2 : o2.gather with
    | error e2 =>
      rw [processGatherError parseIso2 nowEpoch2 nowIso2 modelName2 genId2 patient_id2
        raw_text2 hgo2] at h2
      exact absurd (congrArg Prod.fst h2) (by simp)
    | ok g2 =>
      rw [processGatherOk parseIso2 nowEpoch2 nowIso2 modelName2 genId2 patient_id2
        raw_text2 hgo2] at h2
      have hcalls := congrArg Prod.snd h
      have hret := congrArg Prod.fst h
      have hcalls2 := congrArg Prod.snd h2
      simp only at hcalls hret hcalls2
      subst hcalls
      subst hcalls2
      injection hret with hr
      subst hr
      refine ⟨?_, rfl, rfl, rfl, ?_⟩
      · intro c hc
        simp only [List.mem_cons, List.not_mem_nil, or_false] at hc
        rcases hc with rfl | rfl <;> rfl
      · intro c hc d hd
        simp only [List.mem_cons, List.not_mem_nil, or_false] at hc hd
        rcases hc with rfl | rfl <;> rcases hd with rfl | rfl <;>
          simp only [CreateCall.correlationId, ne_eq, Option.some.injEq] <;> exact hne

/-- C1 witness: two concrete process calls on the sample outcomes with
generated identifiers uuid-1 and uuid-2. -/
theorem C1_process_correlation_id_invariant_witness :
    (∀ c ∈ c1CallsA, c.correlationId = some "uuid-1") ∧
    c1ReturnA.hospitalization_id = "uuid-1" ∧
    c1ReturnA.clinical_hospitalization_id = some "uuid-1" ∧
    c1ReturnA.hospital_hospitalization_id = some "uuid-1" ∧
    (∀ c ∈ c1CallsA, ∀ d ∈ c1CallsB, c.correlationId ≠ d.correlationId) :=
  C1_process_correlation_id_invariant
    sampleParseIso 0 "2025-10-05T12:00:00Z" "openai:gpt-4o-mini" "uuid-1" "P-1"
    "chest pain note" sampleOutcomes c1ReturnA c1CallsA
    sampleParseIso 0 "2025-10-05T12:00:00Z" "openai:gpt-4o-mini" "uuid-2" "P-1"
    "chest pain note" sampleOutcomes c1ReturnB c1CallsB
    (by rfl) (by rfl) (by decide)

/-- C2: if any one of the eleven concurrently invoked capabilities fails,
the whole process call fails and reaches zero repository create
operations, for either record type. -/
theorem C2_capability_failure_no_persistence
    (parseIso : String → Option Int) (nowEpoch : Int)
    (nowIso modelName genId patient_id raw_text : String)
    (o : ProcessOutcomes) (h : o.anyFailed = true) :
    (process parseIso nowEpoch nowIso modelName genId patient_id raw_text o).2 = [] ∧
    exceptFailed (process parseIso nowEpoch nowIso modelName genId patient_id raw_text o).1 =
      true := by
  cases o with
  | mk presentation history findings assessment course follow_up treatments labs
      facility_timing diagnosis medication_risk =>
    cases presentation with
    | error e => exact ⟨rfl, rfl⟩
    | ok v1 =>
      cases history with
      | error e => exact ⟨rfl, rfl⟩
      | ok v2 =>
        cases findings with
        | error e => exact ⟨rfl, rfl⟩
        | ok v3 =>
          cases assessment with
          | error e => exact ⟨rfl, rfl⟩
          | ok v4 =>
            cases course with
            | error e => exact ⟨rfl, rfl⟩
            | ok v5 =>
              cases follow_up with
              | error e => exact ⟨rfl, rfl⟩
              | ok v6 =>
                cases treatments with
                | error e => exact ⟨rfl, rfl⟩
                | ok v7 =>
                  cases labs with
                  | error e => exact ⟨rfl, rfl⟩
                  | ok v8 =>
                    cases facility_timing with
                    | error e => exact ⟨rfl, rfl⟩
                    | ok v9 =>
                      cases diagnosis with
                      | error e => exact ⟨rfl, rfl⟩
                      | ok v10 =>
                        cases medication_risk with
                        | error e => exact ⟨rfl, rfl⟩
                        | ok v11 =>
                          simp [ProcessOutcomes.anyFailed, exceptFailed] at h

/-- C2 witness: with the labs capability failed, the concrete process call
fails and persists nothing. -/
theorem C2_capability_failure_no_persistence_witness :
    failingOutcomes.anyFailed = true ∧
    (process sampleParseIso 0 "2025-10-05T12:00:00Z" "openai:gpt-4o-mini" "uuid-3" "P-1"
      "chest pain note" failingOutcomes).2 = [] ∧
    exceptFailed (process sampleParseIso 0 "2025-10-05T12:00:00Z" "openai:gpt-4o-mini"
      "uuid-3" "P-1" "chest pain note" failingOutcomes).1 = true :=
  ⟨by rfl,
   C2_capability_failure_no_persistence sampleParseIso 0 "2025-10-05T12:00:00Z"
     "openai:gpt-4o-mini" "uuid-3" "P-1" "chest pain note" failingOutcomes (by rfl)⟩

/-- C4 counterexample: under a uniqueness constraint on the clinical
hospitalization_id column, the second create with the same identifier
fails with a plain DatabaseError, not with DuplicateRecordError, because
the except IntegrityError clause of ClinicalSummaryRepository.create maps
every integrity error to DatabaseError. -/
theorem C4_clinical_duplicate_counterexample :
    ClinicalSummaryRepository.createUnderUniqueConstraint [] (some "h-1") =
      Except.ok ["h-1"] ∧
    ClinicalSummaryRepository.createUnderUniqueConstraint ["h-1"] (some "h-1") =
      Except.error (RepoError.databaseError "Failed to create record") ∧
    (RepoError.databaseError "Failed to create record").isDuplicate = false := by
  refine ⟨rfl, ?_, rfl⟩
  rfl

/-- C4 amended: creating twice with the same correlation identifier under
the uniqueness constraint succeeds first and fails second, but the error
type differs per record type: the hospital summary repository raises
DuplicateRecordError (when the card carries the identifier and the error
message names the column), while the clinical summary repository raises a
plain DatabaseError for any IntegrityError (and its sqlalchemy model
declares no uniqueness constraint at all on hospitalization_id). -/
theorem C4_amended_duplicate_error_types (db : List String)
    (card : HospitalAdmissionSummaryCard) (hid : String)
    (hcard : card.hospitalization_id = some hid) (hnew : hid ∉ db) :
    HospitalSummaryRepository.create db card = Except.ok (db ++ [hid]) ∧
    HospitalSummaryRepository.create (db ++ [hid]) card =
      Except.error (RepoError.duplicateRecordError "hospitalization_id" hid) ∧
    ClinicalSummaryRepository.createUnderUniqueConstraint (db ++ [hid]) (some hid) =
      Except.error (RepoError.databaseError "Failed to create record") := by
  refine ⟨?_, ?_, ?_⟩ <;>
    simp [HospitalSummaryRepository.create,
      ClinicalSummaryRepository.createUnderUniqueConstraint,
      insertWithUniqueHospitalizationId, hcard, hnew,
      hospitalHandleIntegrityError, clinicalHandleIntegrityError]

/-- C4 witness: the sample card with identifier h-1 against an empty
table. -/
theorem C4_amended_duplicate_error_types_witness :
    HospitalSummaryRepository.create [] sampleCard = Except.ok ["h-1"] ∧
    HospitalSummaryRepository.create ["h-1"] sampleCard =
      Except.error (RepoError.duplicateRecordError "hospitalization_id" "h-1") ∧
    ClinicalSummaryRepository.createUnderUniqueConstraint ["h-1"] (some "h-1") =
      Except.error (RepoError.databaseError "Failed to create record") :=
  C4_amended_duplicate_error_types [] sampleCard "h-1" (by rfl) (by decide)

/-- C5: evaluation of the code at the failing input. The aggregator
produced a card whose facility name is empty, so domain validation fails
with the missing facility name ValidationError; yet extract reports the
failure as LLMExtractionError, because _validate_extraction runs inside
the try block whose except Exception clause wraps every failure. The
method docstring states that ValidationError is raised when validation
fails, which this evaluation contradicts. -/
theorem C5_validation_reported_as_extraction_error :
    HospitalSummaryExtractor.validate_extraction sampleParseIso invalidFacilityCard =
      Except.error HospValidationFailure.missingFacilityName ∧
    HospitalSummaryExtractor.extract sampleParseIso "P-1" "note text"
      (Except.ok invalidFacilityCard) =
      Except.error (ExtractorFailure.llmExtractionError "hospital_summary"
        ("Hospital summary extraction failed: " ++
          HospValidationFailure.missingFacilityName.message)) := by
  constructor <;> rfl

/-- C6 counterexample: in the handler schedule (the process call whose
record types include the hospital summary), the identifier discovery
capability facility_timing is invoked in the same concurrent gather batch
as the diagnosis capability, so it does not complete before the remaining
capabilities of that record type start. -/
theorem C6_handler_concurrent_counterexample :
    invokedConcurrently handlerSchedule Capability.facility_timing Capability.diagnosis =
      true ∧
    completesBefore handlerSchedule Capability.facility_timing Capability.diagnosis =
      false := by
  decide

/-- C6 amended: inside the dedicated aggregator
HospitalAdmissionSummaryCardExtractor.extract the facility timing
capability completes before the diagnosis and medication risk capabilities
start (and those two run concurrently with each other); but in
ClinicalAndHospitalSummaryExtractionHandler.process all eleven
capabilities, facility timing included, are launched in a single
concurrent batch, the shared identifier there being generated before any
capability rather than discovered. -/
theorem C6_amended_ordering :
    completesBefore hospitalAggregatorSchedule Capability.facility_timing
      Capability.diagnosis = true ∧
    completesBefore hospitalAggregatorSchedule Capability.facility_timing
      Capability.medication_risk = true ∧
    invokedConcurrently hospitalAggregatorSchedule Capability.diagnosis
      Capability.medication_risk = true ∧
    handlerSchedule.length = 1 := by
  decide

/-- C7 counterexample: the configured per attempt timeout is never applied.
The facility timing tool consumes only api_key, model_name and max_retries
from the configuration; timeout_seconds (default 180) is not among the
settings it reads, and its run method wraps the agent call in no timeout
primitive. -/
theorem C7_timeout_not_consumed :
    SettingsField.timeoutSeconds ∉ facilityTimingToolSettingsRead ∧
    pydantic_ai_settings.timeout_seconds = 180 := by
  decide

/-- C7 amended: no per attempt timeout is enforced by capability
invocations. The timeout_seconds configuration field exists with default
180 and minimum 30, but the capability tool reads only api_key, model_name
and max_retries, and the agent it builds carries a retries argument and no
timeout argument. -/
theorem C7_amended_no_timeout_applied :
    (∀ fld ∈ facilityTimingToolSettingsRead, fld ≠ SettingsField.timeoutSeconds) ∧
    pydantic_ai_settings.timeout_seconds = 180 ∧
    (∀ s : PydanticAISettings, ∀ dsp : String, ∀ mn spo : Option String,
      (build_facility_timing_agent s dsp mn spo).retries = s.max_retries) :=
  ⟨by decide, rfl, fun _ _ _ _ => rfl⟩

/-- Attempt count bound for the modelled retry loop. -/
theorem invokeAttemptsFrom_bound {α : Type} (attempt : Nat → Except CapabilityFailure α) :
    ∀ remaining i, (invokeAttemptsFrom attempt remaining i).1 ≤ i + remaining + 1 := by
  intro remaining
  induction remaining with
  | zero => intro i; simp [invokeAttemptsFrom]
  | succ r ih =>
    intro i
    cases hA : attempt i with
    | ok a => simp [invokeAttemptsFrom, hA]
    | error e =>
      have := ih (i + 1)
      simp only [invokeAttemptsFrom, hA]
      omega

/-- C8: a capability invocation configured the way the repository
configures it (the agent built by build_facility_timing_agent carries
retries equal to the settings max_retries value) never executes more than
maxRetries plus one attempts, whatever the attempt outcomes are. -/
theorem C8_attempts_bounded {α : Type} (attempt : Nat → Except CapabilityFailure α)
    (settings : PydanticAISettings) (default_system_prompt : String)
    (model_name system_prompt_override : Option String) :
    (invokeWithRetries attempt
      (build_facility_timing_agent settings default_system_prompt model_name
        system_prompt_override).retries).1 ≤ settings.max_retries + 1 := by
  have h := invokeAttemptsFrom_bound attempt settings.max_retries 0
  simpa [invokeWithRetries, build_facility_timing_agent] using h

/-- C8 witness: an always failing capability under the default settings
(max_retries 2) executes at most three attempts. -/
theorem C8_attempts_bounded_witness :
    (invokeWithRetries
      (fun _ => (Except.error { message := "transient failure" } :
        Except CapabilityFailure Unit))
      (build_facility_timing_agent pydantic_ai_settings "prompt" none none).retries).1 ≤
      pydantic_ai_settings.max_retries + 1 :=
  C8_attempts_bounded
    (fun _ => (Except.error { message := "transient failure" } : Except CapabilityFailure Unit))
    pydantic_ai_settings "prompt" none none

end ExtractionService
